import Mathlib

/-!
Verification of the ShareFrame user-creation service core: the
validation-and-orchestration pipeline.

The Go sources are embedded shallowly:

* `internal/helper/helper.go` — pure validation functions over strings
  (`ValidateAndFormatUser`, `ValidateHandle`, `EnsureHandleSuffix`,
  `ValidateEmail`, `ValidatePassword`).  Go byte strings are modelled as
  Lean `String`/`List Char`; `len` on a Go string is UTF-8 byte length,
  modelled by `byteLen`.
* `internal/atproto` (`CheckUserExists`) — the HTTP call is abstracted to
  its outcome (`Except String Nat`: transport error or status code); the
  status-interpretation logic is embedded exactly.
* `internal/dynamo/db.go` (`StoreUser`) — the PutItem call and the time
  zone load are abstracted to success flags; the guard logic is embedded.
* `internal/handlers` (`UserHandler`) — the orchestration is embedded as a
  function of an `Env` record holding the outcome of each external
  collaborator call for the run; the function additionally returns the
  trace of collaborator calls it performed, in order.
-/

namespace UserCreation

/-! ### Characters and Go string primitives -/

/-- ASCII uppercase letter, the runes matched by the Go regex `[A-Z]`. -/
def isAsciiUpper (c : Char) : Bool := 'A' ≤ c && c ≤ 'Z'

/-- ASCII lowercase letter, the runes matched by the Go regex `[a-z]`. -/
def isAsciiLower (c : Char) : Bool := 'a' ≤ c && c ≤ 'z'

/-- ASCII digit, the runes matched by the Go regex `\d`. -/
def isAsciiDigit (c : Char) : Bool := '0' ≤ c && c ≤ '9'

/-- ASCII letter. -/
def isAsciiAlpha (c : Char) : Bool := isAsciiUpper c || isAsciiLower c

/-- ASCII letter or digit, the character class `[a-zA-Z0-9]`. -/
def isAsciiAlphaNum (c : Char) : Bool := isAsciiAlpha c || isAsciiDigit c

/-- Number of bytes of the UTF-8 encoding of a character. -/
def charUtf8Size (c : Char) : Nat :=
  if c.val < 0x80 then 1 else if c.val < 0x800 then 2
  else if c.val < 0x10000 then 3 else 4

/-- UTF-8 byte length of a character list. -/
def utf8Len (l : List Char) : Nat := (l.map charUtf8Size).sum

/-- Go `len(s)` on a string: its UTF-8 byte length. -/
def byteLen (s : String) : Nat := utf8Len s.data

/-- ASCII lower-casing of one character, as Go `strings.EqualFold`
performs on ASCII letters. -/
def asciiLower (c : Char) : Char :=
  if 'A' ≤ c && c ≤ 'Z' then Char.ofNat (c.toNat + 32) else c

/-- Go `strings.EqualFold` restricted to its ASCII behaviour:
case-insensitive equality. -/
def equalFold (s t : String) : Bool :=
  s.data.map asciiLower == t.data.map asciiLower

/-- Whitespace recognised by Go `unicode.IsSpace` (Latin-1 range). -/
def isGoSpace (c : Char) : Bool :=
  c == ' ' || c == '\t' || c == '\n' || c == Char.ofNat 11 ||
  c == Char.ofNat 12 || c == '\r' || c == Char.ofNat 0x85 || c == Char.ofNat 0xA0

/-- Go `strings.TrimSpace` on a character list: drop whitespace from both
ends. -/
def trimSpaceL (l : List Char) : List Char :=
  ((l.dropWhile isGoSpace).reverse.dropWhile isGoSpace).reverse

/-- Go `strings.TrimSpace`. -/
def trimSpace (s : String) : String := ⟨trimSpaceL s.data⟩

/-- Go `strings.HasSuffix`. -/
def endsWithGo (s suffixStr : String) : Bool := suffixStr.data.isSuffixOf s.data

/-- Go `strings.TrimSuffix`: remove one trailing occurrence when present. -/
def trimSuffixGo (s suffixStr : String) : String :=
  if suffixStr.data.isSuffixOf s.data then
    ⟨s.data.take (s.data.length - suffixStr.data.length)⟩
  else s

/-! ### Constants from `internal/helper/helper.go` -/

def PDS_Suffix : String := ".shareframe.social"

def PasswordError : String :=
  "password must be at least 8 characters long and include at least one uppercase letter, one lowercase letter, one digit, and one special character"

def MissingFields : String := "handle, email, and password are required fields"

def EmailTaken : String := "email is already registered"

def InvalidHandle : String := "handle can only include letters and numbers"

def BlockedHandle : String := "handle is not allowed"

def HandleTooShort : String := "handle must be at least 3 characters long"

def HandleTooLong : String := "handle cannot exceed 18 characters"

/-- The fixed punctuation set of the Go regex
`[!@#$%^&*()_+\-=\[\]{}|;:'",.<>?/\\]` used by `ValidatePassword`.
Brace, quote and backslash characters are written via `Char.ofNat`. -/
def specialChars : List Char :=
  ['!', '@', '#', '$', '%', Char.ofNat 94, '&', '*', '(', ')', '_', '+',
   '-', '=', '[', ']', Char.ofNat 123, Char.ofNat 125, '|', ';', ':',
   Char.ofNat 39, Char.ofNat 34, ',', '.', '<', '>', '?', '/', Char.ofNat 92]

/-! ### Regex matchers from `internal/helper/helper.go` -/

/-- The Go regex `^[a-zA-Z0-9]+$` (`handleRegex`). -/
def handleRegexMatch (s : String) : Bool :=
  !s.data.isEmpty && s.data.all isAsciiAlphaNum

/-- Character class `[a-zA-Z0-9._%+-]` of the local part of `emailRegex`. -/
def isEmailLocalChar (c : Char) : Bool :=
  isAsciiAlphaNum c || c == '.' || c == '_' || c == '%' || c == '+' || c == '-'

/-- Character class `[a-zA-Z0-9.-]` of the domain part of `emailRegex`. -/
def isEmailDomainChar (c : Char) : Bool :=
  isAsciiAlphaNum c || c == '.' || c == '-'

/-- Matcher for the part of `emailRegex` after the `@`:
`[a-zA-Z0-9.-]+\.[a-zA-Z]{2,}$`.  Since the top-level label admits only
letters, a match must split at the last dot. -/
def emailDomainMatch (l : List Char) : Bool :=
  let revl := l.reverse
  let tldRev := revl.takeWhile (fun c => !(c == '.'))
  let restRev := revl.dropWhile (fun c => !(c == '.'))
  match restRev with
  | [] => false
  | _ :: domRev =>
    let dom := domRev.reverse
    let tld := tldRev.reverse
    !dom.isEmpty && dom.all isEmailDomainChar &&
      decide (2 ≤ tld.length) && tld.all isAsciiAlpha

/-- The Go regex `^[a-zA-Z0-9._%+-]+@[a-zA-Z0-9.-]+\.[a-zA-Z]{2,}$`
(`emailRegex`).  Neither character class admits `@`, so a match must
split at the first `@`. -/
def emailRegexMatch (s : String) : Bool :=
  let l := s.data
  let localPart := l.takeWhile (fun c => !(c == '@'))
  let rest := l.dropWhile (fun c => !(c == '@'))
  match rest with
  | [] => false
  | _ :: afterAt =>
    !localPart.isEmpty && localPart.all isEmailLocalChar && emailDomainMatch afterAt

/-! ### Data model (`internal/models/models.go`) -/

structure UserRequest where
  handle : String
  email : String
  password : String
deriving DecidableEq, Repr

structure AdminCreds where
  pdsJWTSecret : String
  pdsAdminPassword : String
  pdsAdminUsername : String
deriving DecidableEq, Repr

structure UtilAccountCreds where
  username : String
  password : String
  did : String
deriving DecidableEq, Repr

structure InviteCodeResponse where
  code : String
deriving DecidableEq, Repr

structure SessionResponse where
  accessJwt : String
  did : String
  handle : String
deriving DecidableEq, Repr

structure CreateUserResponse where
  handle : String
  did : String
  accessJWT : String
  refreshJWT : String
deriving DecidableEq, Repr

/-- The zero value `models.UserRequest{}` returned by every error path of
`ValidateAndFormatUser`. -/
def zeroUserRequest : UserRequest := ⟨"", "", ""⟩

/-! ### Validation functions (`internal/helper/helper.go`) -/

/-- Embedding of `helper.ValidateHandle`: length bounds, then the blocklist loop, then
the character-set regex.  Errors are the exact Go messages
(`fmt.Errorf` with format `"%v: %v"`). -/
def ValidateHandle (blocked : List String) (handle : String) : Option String :=
  if byteLen handle < 3 then some (HandleTooShort ++ ": " ++ handle)
  else if byteLen handle > 18 then some (HandleTooLong ++ ": " ++ handle)
  else if blocked.any (fun b => equalFold handle b) then
    some (BlockedHandle ++ ": " ++ handle)
  else if handleRegexMatch handle then none
  else some (InvalidHandle ++ ": " ++ handle)

/-- Embedding of `helper.EnsureHandleSuffix`: trim whitespace, then append
`PDS_Suffix` unless already present. -/
def EnsureHandleSuffix (handle : String) : String :=
  let t := trimSpace handle
  if endsWithGo t PDS_Suffix then t else ⟨t.data ++ PDS_Suffix.data⟩

/-- Embedding of `helper.ValidateEmail`. -/
def ValidateEmail (email : String) : Option String :=
  if emailRegexMatch email then none else some "invalid email format"

/-- Embedding of `helper.ValidatePassword`: minimum byte length 8 and one character of
each of the four classes; a single fixed failure message. -/
def ValidatePassword (password : String) : Option String :=
  if byteLen password < 8
      || !password.data.any isAsciiUpper
      || !password.data.any isAsciiLower
      || !password.data.any isAsciiDigit
      || !password.data.any (fun c => specialChars.contains c) then
    some PasswordError
  else none

/-- Embedding of `helper.ValidateAndFormatUser`.  The database collaborator is the
function `checkEmail` (`CheckEmailExists`), returning Go's
`(bool, error)` pair.  The result is the Go `(models.UserRequest, error)`
pair, plus a flag recording whether the database was queried. -/
def ValidateAndFormatUser (blocked : List String)
    (checkEmail : String → Bool × Option String) (event : UserRequest) :
    (UserRequest × Option String) × Bool :=
  if event.handle = "" ∨ event.email = "" ∨ event.password = "" then
    ((zeroUserRequest, some MissingFields), false)
  else
    let baseHandle := trimSuffixGo event.handle PDS_Suffix
    match ValidateHandle blocked baseHandle with
    | some e => ((zeroUserRequest, some e), false)
    | none =>
      let event1 : UserRequest := { event with handle := EnsureHandleSuffix baseHandle }
      match ValidateEmail event1.email with
      | some e => ((zeroUserRequest, some e), false)
      | none =>
        match ValidatePassword event1.password with
        | some e => ((zeroUserRequest, some ("password validation failed: " ++ e)), false)
        | none =>
          match checkEmail event1.email with
          | (_, some _) => ((zeroUserRequest, some "internal error: failed to check email"), true)
          | (true, none) => ((zeroUserRequest, some EmailTaken), true)
          | (false, none) => ((event1, none), true)

/-! ### Remote existence check (`internal/atproto`, `CheckUserExists`) -/

/-- Embedding of `atproto.CheckUserExists`, with the HTTP GET abstracted to its
outcome: a transport error or a status code.  Status 200 means the
profile exists; 404 and 400 both mean it does not (the remote server
answers Bad Request for a missing profile); anything else is an error.
The result is Go's `(bool, error)` pair. -/
def CheckUserExists (httpResult : Except String Nat) : Bool × Option String :=
  match httpResult with
  | .error e => (false, some ("request failed: " ++ e))
  | .ok status =>
    if status = 200 then (true, none)
    else if status = 404 ∨ status = 400 then (false, none)
    else (false, some ("unexpected status code: " ++ toString status))

/-! ### Persistence writer (`internal/dynamo/db.go`, `StoreUser`) -/

/-- Embedding of `dynamo.StoreUser`, with the time-zone load and the PutItem call
abstracted to success flags `tzOk` and `putOk`.  Returns Go's error and
whether a PutItem write was attempted. -/
def StoreUser (tzOk putOk : Bool) (user : CreateUserResponse) (_event : UserRequest) :
    Option String × Bool :=
  if user.did = "" ∨ user.handle = "" then
    (some "user DID and handle are required", false)
  else if tzOk = false then (some "failed to load time zone", false)
  else if putOk = false then (some "failed to store user in DynamoDB", true)
  else (none, true)

/-! ### Request handler (`internal/handlers`, `UserHandler`) -/

/-- One collaborator call of a handler run. -/
inductive Step where
  | checkEmail
  | retrieveAdmin
  | createInvite
  | retrieveUtil
  | createSession
  | checkExists
  | register
  | store
deriving DecidableEq, Repr

/-- The outcome of each external collaborator call for one handler run.
Each field is what the corresponding remote call would return if
performed. -/
structure Env where
  loadConfigOk : Bool
  checkEmail : String → Bool × Option String
  adminCreds : Except String AdminCreds
  inviteCode : Except String InviteCodeResponse
  utilCreds : Except String UtilAccountCreds
  session : Except String SessionResponse
  userExistsHttp : Except String Nat
  registerResult : Except String CreateUserResponse
  tzOk : Bool
  putOk : Bool

/-- Boolean success of an `Except` outcome. -/
def isOkE {ε α : Type} (e : Except ε α) : Bool :=
  match e with
  | .ok _ => true
  | .error _ => false

/-- The part of `UserHandler` after validation succeeded: retrieve admin
credentials, create an invite code, retrieve util-account credentials,
create a session, check remote handle existence, register the account,
store it locally — strictly in this order, aborting on the first
failure.  Returns the Go `(*CreateUserResponse, error)` pair and the
trace of collaborator calls performed. -/
def runOrchestration (env : Env) (updatedEvent : UserRequest) :
    Option CreateUserResponse × Option String × List Step :=
  match env.adminCreds with
  | .error _ =>
    (none, some "internal error: could not retrieve admin credentials",
     [Step.retrieveAdmin])
  | .ok _ =>
    match env.inviteCode with
    | .error _ =>
      (none, some "internal error: failed to generate invite code",
       [Step.retrieveAdmin, Step.createInvite])
    | .ok _ =>
      match env.utilCreds with
      | .error _ =>
        (none, some "internal error: could not retrieve authentication credentials",
         [Step.retrieveAdmin, Step.createInvite, Step.retrieveUtil])
      | .ok utilAccountCreds =>
        match env.session with
        | .error _ =>
          (none, some ("authentication failed for user " ++ utilAccountCreds.username),
           [Step.retrieveAdmin, Step.createInvite, Step.retrieveUtil, Step.createSession])
        | .ok _ =>
          match CheckUserExists env.userExistsHttp with
          | (_, some _) =>
            (none, some "internal error: failed to check if user exists",
             [Step.retrieveAdmin, Step.createInvite, Step.retrieveUtil,
              Step.createSession, Step.checkExists])
          | (true, none) =>
            (none, some ("user already exists with handle: " ++ updatedEvent.handle),
             [Step.retrieveAdmin, Step.createInvite, Step.retrieveUtil,
              Step.createSession, Step.checkExists])
          | (false, none) =>
            match env.registerResult with
            | .error e =>
              (none, some ("failed to register user: " ++ e),
               [Step.retrieveAdmin, Step.createInvite, Step.retrieveUtil,
                Step.createSession, Step.checkExists, Step.register])
            | .ok user =>
              match StoreUser env.tzOk env.putOk user updatedEvent with
              | (some _, _) =>
                (none, some "internal error: failed to store user data",
                 [Step.retrieveAdmin, Step.createInvite, Step.retrieveUtil,
                  Step.createSession, Step.checkExists, Step.register, Step.store])
              | (none, _) =>
                (some user, none,
                 [Step.retrieveAdmin, Step.createInvite, Step.retrieveUtil,
                  Step.createSession, Step.checkExists, Step.register, Step.store])

/-- Embedding of `handlers.UserHandler`: load configuration, validate and format the
request (including the duplicate-email check), then orchestrate the
remote calls. -/
def UserHandler (blocked : List String) (env : Env) (event : UserRequest) :
    Option CreateUserResponse × Option String × List Step :=
  if env.loadConfigOk = false then
    (none, some "internal error: failed to load application configuration", [])
  else
    match ValidateAndFormatUser blocked env.checkEmail event with
    | ((_, some e), dbCalled) =>
      (none, some ("validation error: " ++ e),
       if dbCalled then [Step.checkEmail] else [])
    | ((updatedEvent, none), dbCalled) =>
      let r := runOrchestration env updatedEvent
      (r.1, r.2.1, (if dbCalled then [Step.checkEmail] else []) ++ r.2.2)

/-! ### Remote-step traces -/

/-- The identity-protocol calls plus the local store, in the fixed order
the spec prescribes. -/
def remoteSteps : List Step :=
  [Step.createInvite, Step.createSession, Step.checkExists, Step.register, Step.store]

/-- Whether a step is one of `remoteSteps`. -/
def isRemoteStep (s : Step) : Bool :=
  match s with
  | Step.createInvite | Step.createSession | Step.checkExists
  | Step.register | Step.store => true
  | _ => false

/-- Projection of a trace onto the remote steps of `remoteSteps`. -/
def filterRemote (t : List Step) : List Step := t.filter isRemoteStep

/-- The remote-call sequence the specification prescribes for a run whose
validation passed: the fixed order create-invite-code, create-session,
existence check, register, store, stopping at the first failing step,
and stopping before registration when the existence check reports the
handle taken.  Stated from the spec's words, to be compared with the
trace `UserHandler` actually produces. -/
def specRemoteSteps (env : Env) : List Step :=
  match env.adminCreds with
  | .error _ => []
  | .ok _ =>
    match env.inviteCode with
    | .error _ => [Step.createInvite]
    | .ok _ =>
      match env.utilCreds with
      | .error _ => [Step.createInvite]
      | .ok _ =>
        match env.session with
        | .error _ => [Step.createInvite, Step.createSession]
        | .ok _ =>
          match CheckUserExists env.userExistsHttp with
          | (_, some _) => [Step.createInvite, Step.createSession, Step.checkExists]
          | (true, none) => [Step.createInvite, Step.createSession, Step.checkExists]
          | (false, none) =>
            match env.registerResult with
            | .error _ =>
              [Step.createInvite, Step.createSession, Step.checkExists, Step.register]
            | .ok _ =>
              [Step.createInvite, Step.createSession, Step.checkExists,
               Step.register, Step.store]

/-! ### Concrete sample data for witnesses -/

/-- A duplicate-check collaborator that reports no duplicate. -/
def dbNoDup : String → Bool × Option String := fun _ => (false, none)

def sampleAdmin : AdminCreds := ⟨"jwtsecret", "adminpw", "adminuser"⟩

def sampleInvite : InviteCodeResponse := ⟨"invite-code-1"⟩

def sampleUtil : UtilAccountCreds := ⟨"util.shareframe.social", "utilpw", "did:plc:util"⟩

def sampleSession : SessionResponse := ⟨"access-jwt", "did:plc:util", "util.shareframe.social"⟩

def sampleUser : CreateUserResponse :=
  ⟨"validuser.shareframe.social", "did:plc:abc123", "acc-jwt", "ref-jwt"⟩

/-- An environment where every collaborator call succeeds and the remote
existence check answers 404 (handle free). -/
def envAllOk : Env :=
  ⟨true, dbNoDup, .ok sampleAdmin, .ok sampleInvite, .ok sampleUtil,
   .ok sampleSession, .ok 404, .ok sampleUser, true, true⟩

def sampleEvent : UserRequest := ⟨"validuser", "user@example.com", "Valid@123"⟩

def sampleNormalized : UserRequest :=
  ⟨"validuser.shareframe.social", "user@example.com", "Valid@123"⟩

/-! ### Lemmas about trimming (for suffix-normalization idempotence) -/

theorem dropWhile_dropWhile {α : Type} (p : α → Bool) (l : List α) :
    (l.dropWhile p).dropWhile p = l.dropWhile p := by
  induction l with
  | nil => rfl
  | cons a l ih =>
    by_cases h : p a = true
    · rw [List.dropWhile_cons_of_pos h]; exact ih
    · rw [List.dropWhile_cons_of_neg h, List.dropWhile_cons_of_neg h]

theorem dropWhile_eq_self_of_prefix {α : Type} (p : α → Bool) {l m : List α}
    (hm : m.dropWhile p = m) (hl : l.IsPrefix m) : l.dropWhile p = l := by
  cases l with
  | nil => rfl
  | cons a l2 =>
    cases m with
    | nil =>
      rcases hl with ⟨t, ht⟩
      simp at ht
    | cons b m2 =>
      have hab : a = b := by
        rcases hl with ⟨t, ht⟩
        rw [List.cons_append] at ht
        injection ht
      have hpb : ¬ p b = true := by
        intro hpb
        rw [List.dropWhile_cons_of_pos hpb] at hm
        have hle := (List.dropWhile_sublist (l := m2) p).length_le
        have := congrArg List.length hm
        simp at this
        omega
      rw [hab]
      exact List.dropWhile_cons_of_neg hpb

theorem dropWhile_trimSpaceL (l : List Char) :
    (trimSpaceL l).dropWhile isGoSpace = trimSpaceL l := by
  have hm : (l.dropWhile isGoSpace).dropWhile isGoSpace = l.dropWhile isGoSpace :=
    dropWhile_dropWhile _ l
  apply dropWhile_eq_self_of_prefix _ hm
  show (((l.dropWhile isGoSpace).reverse.dropWhile isGoSpace).reverse).IsPrefix
    (l.dropWhile isGoSpace)
  have hsuf : ((l.dropWhile isGoSpace).reverse.dropWhile isGoSpace).IsSuffix
      (l.dropWhile isGoSpace).reverse := List.dropWhile_suffix _
  have := List.reverse_prefix.mpr hsuf
  rwa [List.reverse_reverse] at this

theorem trimSpaceL_idem (l : List Char) : trimSpaceL (trimSpaceL l) = trimSpaceL l := by
  show (((trimSpaceL l).dropWhile isGoSpace).reverse.dropWhile isGoSpace).reverse = trimSpaceL l
  rw [dropWhile_trimSpaceL]
  show ((((l.dropWhile isGoSpace).reverse.dropWhile isGoSpace).reverse).reverse.dropWhile
    isGoSpace).reverse = _
  rw [List.reverse_reverse, dropWhile_dropWhile]
  rfl

theorem trimSpaceL_fix_head (l : List Char) (hl : trimSpaceL l = l) :
    l.dropWhile isGoSpace = l := by
  conv_lhs => rw [← hl]
  conv_rhs => rw [← hl]
  exact dropWhile_trimSpaceL l

/-- The constant `PDS_Suffix` has no surrounding whitespace, so trimming fixes it. -/
theorem trimSpaceL_suffix_fix : trimSpaceL PDS_Suffix.data = PDS_Suffix.data := by decide

theorem trimSpaceL_append_suffix (l : List Char) (hl : trimSpaceL l = l) :
    trimSpaceL (l ++ PDS_Suffix.data) = l ++ PDS_Suffix.data := by
  have hleft : (l ++ PDS_Suffix.data).dropWhile isGoSpace = l ++ PDS_Suffix.data := by
    rw [List.dropWhile_append, trimSpaceL_fix_head l hl]
    cases l with
    | nil => simp; decide
    | cons a l2 => simp
  have hrev : (l ++ PDS_Suffix.data).reverse.dropWhile isGoSpace =
      (l ++ PDS_Suffix.data).reverse := by
    rw [List.reverse_append, List.dropWhile_append]
    have hsfix : PDS_Suffix.data.reverse.dropWhile isGoSpace = PDS_Suffix.data.reverse := by
      decide
    rw [hsfix]
    have : (PDS_Suffix.data.reverse).isEmpty = false := by decide
    simp [this]
  show (((l ++ PDS_Suffix.data).dropWhile isGoSpace).reverse.dropWhile isGoSpace).reverse =
    l ++ PDS_Suffix.data
  rw [hleft, hrev, List.reverse_reverse]

theorem isSuffixOf_append_self (a b : List Char) : b.isSuffixOf (a ++ b) = true := by
  rw [List.isSuffixOf_iff_suffix]
  exact List.suffix_append a b

theorem trimSpace_idem (s : String) : trimSpace (trimSpace s) = trimSpace s := by
  show (⟨trimSpaceL (trimSpaceL s.data)⟩ : String) = trimSpace s
  rw [trimSpaceL_idem]
  rfl

/-- C8: suffix normalization is idempotent — applying
`EnsureHandleSuffix` twice yields the same handle as applying it once. -/
theorem ensureHandleSuffix_idempotent (h : String) :
    EnsureHandleSuffix (EnsureHandleSuffix h) = EnsureHandleSuffix h := by
  by_cases hc : endsWithGo (trimSpace h) PDS_Suffix = true
  · have h1 : EnsureHandleSuffix h = trimSpace h := by
      simp only [EnsureHandleSuffix]
      rw [if_pos hc]
    rw [h1]
    simp only [EnsureHandleSuffix]
    rw [trimSpace_idem, if_pos hc]
  · have h1 : EnsureHandleSuffix h = ⟨(trimSpace h).data ++ PDS_Suffix.data⟩ := by
      simp only [EnsureHandleSuffix]
      rw [if_neg hc]
    have hl : trimSpaceL (trimSpace h).data = (trimSpace h).data := trimSpaceL_idem h.data
    have htrim : trimSpace (⟨(trimSpace h).data ++ PDS_Suffix.data⟩ : String)
        = ⟨(trimSpace h).data ++ PDS_Suffix.data⟩ := by
      show (⟨trimSpaceL ((trimSpace h).data ++ PDS_Suffix.data)⟩ : String) = _
      rw [trimSpaceL_append_suffix ((trimSpace h).data) hl]
    have hends : endsWithGo (⟨(trimSpace h).data ++ PDS_Suffix.data⟩ : String)
        PDS_Suffix = true := by
      show PDS_Suffix.data.isSuffixOf ((trimSpace h).data ++ PDS_Suffix.data) = true
      exact isSuffixOf_append_self _ _
    rw [h1]
    simp only [EnsureHandleSuffix]
    rw [htrim, if_pos hends]

/-! ### Claim C5: password strength -/

theorem any_eq_false_iff (q : Char → Bool) (l : List Char) :
    l.any q = false ↔ ¬ ∃ c ∈ l, q c = true := by
  rw [← Bool.not_eq_true, List.any_eq_true]

/-- Characterization: `ValidatePassword` succeeds iff the length bound and all four
character-class requirements hold. -/
theorem validatePassword_eq_none_iff (p : String) :
    ValidatePassword p = none ↔
      (8 ≤ byteLen p ∧ (∃ c ∈ p.data, isAsciiUpper c = true)
        ∧ (∃ c ∈ p.data, isAsciiLower c = true)
        ∧ (∃ c ∈ p.data, isAsciiDigit c = true)
        ∧ (∃ c ∈ p.data, c ∈ specialChars)) := by
  unfold ValidatePassword
  split
  · next hcond =>
    simp only [Bool.or_eq_true, decide_eq_true_eq, Bool.not_eq_true',
      any_eq_false_iff] at hcond
    constructor
    · intro h
      exact Option.noConfusion h
    · rintro ⟨h1, h2, h3, h4, h5⟩
      exfalso
      rcases hcond with ((((hc | hc) | hc) | hc) | hc)
      · omega
      · exact hc h2
      · exact hc h3
      · exact hc h4
      · refine hc ?_
        obtain ⟨c, hcmem, hcs⟩ := h5
        exact ⟨c, hcmem, List.elem_eq_true_of_mem hcs⟩
  · next hcond =>
    simp only [Bool.or_eq_true, decide_eq_true_eq, Bool.not_eq_true',
      any_eq_false_iff, not_or, not_not, not_lt] at hcond
    obtain ⟨⟨⟨⟨h1, h2⟩, h3⟩, h4⟩, h5⟩ := hcond
    constructor
    · intro _
      refine ⟨h1, h2, h3, h4, ?_⟩
      obtain ⟨c, hcmem, hcs⟩ := h5
      exact ⟨c, hcmem, List.elem_iff.mp hcs⟩
    · intro _
      rfl

/-- C5: validation fails with the weak-password error iff the password is
shorter than 8 (bytes, which on ASCII passwords is characters) or lacks
an uppercase letter, a lowercase letter, a digit, or a symbol of the
fixed punctuation set; every failure carries the single fixed message
`PasswordError`. -/
theorem validatePassword_spec (p : String) :
    ((∃ e, ValidatePassword p = some e) ↔
      (byteLen p < 8 ∨ ¬(∃ c ∈ p.data, isAsciiUpper c = true)
        ∨ ¬(∃ c ∈ p.data, isAsciiLower c = true)
        ∨ ¬(∃ c ∈ p.data, isAsciiDigit c = true)
        ∨ ¬(∃ c ∈ p.data, c ∈ specialChars)))
    ∧ (∀ e, ValidatePassword p = some e → e = PasswordError) := by
  constructor
  · constructor
    · rintro ⟨e, he⟩
      by_contra hno
      push_neg at hno
      obtain ⟨hn1, hn2, hn3, hn4, hn5⟩ := hno
      have hnone : ValidatePassword p = none :=
        (validatePassword_eq_none_iff p).mpr ⟨by omega, hn2, hn3, hn4, hn5⟩
      rw [hnone] at he
      exact Option.noConfusion he
    · intro hbad
      rcases hp : ValidatePassword p with _ | e
      · exfalso
        obtain ⟨h1, h2, h3, h4, h5⟩ := (validatePassword_eq_none_iff p).mp hp
        rcases hbad with hb | (hb | (hb | (hb | hb)))
        · omega
        · exact hb h2
        · exact hb h3
        · exact hb h4
        · exact hb h5
      · exact ⟨e, rfl⟩
  · intro e he
    unfold ValidatePassword at he
    split at he
    · exact (Option.some.inj he).symm
    · exact Option.noConfusion he

/-- Witness for C5 at concrete passwords: `weakpass` fails (with the
fixed message), `Valid@123` does not fail. -/
theorem validatePassword_spec_witness :
    (∃ e, ValidatePassword "weakpass" = some e)
    ∧ ValidatePassword "weakpass" = some PasswordError
    ∧ ValidatePassword "Valid@123" = none :=
  ⟨(validatePassword_spec "weakpass").1.mpr (by decide),
   by decide, by decide⟩


/-! ### Claim C9: validation returns the zero request on every error -/

theorem vafu_cases (blocked : List String)
    (checkEmail : String → Bool × Option String) (event : UserRequest) :
    (ValidateAndFormatUser blocked checkEmail event).1.2 = none
    ∨ (ValidateAndFormatUser blocked checkEmail event).1.1 = zeroUserRequest := by
  simp only [ValidateAndFormatUser]
  repeat' split
  all_goals first | (left; rfl) | (right; rfl)

/-- C9: whenever `ValidateAndFormatUser` returns an error, the returned
request value is the zero-valued `UserRequest`. -/
theorem validateAndFormatUser_zero_on_error (blocked : List String)
    (checkEmail : String → Bool × Option String) (event : UserRequest)
    (e : String)
    (h : (ValidateAndFormatUser blocked checkEmail event).1.2 = some e) :
    (ValidateAndFormatUser blocked checkEmail event).1.1 = zeroUserRequest := by
  rcases vafu_cases blocked checkEmail event with h0 | h0
  · rw [h0] at h
    exact Option.noConfusion h
  · exact h0

/-- Witness for C9: the empty request fails with `MissingFields` and the
returned value is the zero request. -/
theorem validateAndFormatUser_zero_on_error_witness :
    (ValidateAndFormatUser [] dbNoDup ⟨"", "", ""⟩).1.2 = some MissingFields
    ∧ (ValidateAndFormatUser [] dbNoDup ⟨"", "", ""⟩).1.1 = zeroUserRequest :=
  ⟨by decide, validateAndFormatUser_zero_on_error [] dbNoDup ⟨"", "", ""⟩
    MissingFields (by decide)⟩

/-! ### Claim C10: the persistence writer refuses incomplete accounts -/

/-- C10: for every account whose DID or handle is empty, `StoreUser`
errors without attempting a write, regardless of the other fields and of
the collaborator outcomes. -/
theorem storeUser_requires_did_handle (tzOk putOk : Bool)
    (user : CreateUserResponse) (event : UserRequest)
    (h : user.did = "" ∨ user.handle = "") :
    StoreUser tzOk putOk user event = (some "user DID and handle are required", false) := by
  unfold StoreUser
  rw [if_pos h]

/-- Witness for C10 at a concrete account with an empty DID. -/
theorem storeUser_requires_did_handle_witness :
    (⟨"handle.shareframe.social", "", "acc", "ref"⟩ : CreateUserResponse).did = ""
    ∧ StoreUser true true ⟨"handle.shareframe.social", "", "acc", "ref"⟩ sampleEvent
      = (some "user DID and handle are required", false) :=
  ⟨rfl, storeUser_requires_did_handle true true _ sampleEvent (Or.inl rfl)⟩

/-! ### Claim C7: blocklist check -/

/-- C7: a base handle case-insensitively equal to a blocklist entry fails
with the blocked-handle error (the length checks that precede the loop
being satisfied); no hypothesis on the character-set regex is needed,
because the blocklist loop runs before the character-set check. -/
theorem validateHandle_blocked (blocked : List String) (handle : String)
    (hlen3 : 3 ≤ byteLen handle) (hlen18 : byteLen handle ≤ 18)
    (hmem : ∃ b ∈ blocked, equalFold handle b = true) :
    ValidateHandle blocked handle = some (BlockedHandle ++ ": " ++ handle) := by
  unfold ValidateHandle
  rw [if_neg (by omega), if_neg (by omega), if_pos]
  exact List.any_eq_true.mpr hmem

/-- Witness for C7: `Admin` matches the blocklist entry `admin`
case-insensitively and is rejected; the same applies to a handle that
would also fail the character-set check, showing the blocklist verdict
wins. -/
theorem validateHandle_blocked_witness :
    (3 ≤ byteLen "Admin" ∧ byteLen "Admin" ≤ 18
      ∧ (∃ b ∈ ["admin"], equalFold "Admin" b = true))
    ∧ ValidateHandle ["admin"] "Admin" = some (BlockedHandle ++ ": " ++ "Admin")
    ∧ ValidateHandle ["ad-min"] "AD-MIN" = some (BlockedHandle ++ ": " ++ "AD-MIN") :=
  ⟨by decide,
   validateHandle_blocked ["admin"] "Admin" (by decide) (by decide) (by decide),
   validateHandle_blocked ["ad-min"] "AD-MIN" (by decide) (by decide) (by decide)⟩

/-! ### Orchestration helper lemmas -/

theorem isOkE_exists {ε α : Type} {e : Except ε α} (h : isOkE e = true) :
    ∃ a, e = Except.ok a := by
  cases e
  · simp [isOkE] at h
  · exact ⟨_, rfl⟩

/-- After a successful validation, the handler is the orchestration run
prefixed by the duplicate-check call. -/
theorem userHandler_validated (blocked : List String) (env : Env) (event ue : UserRequest)
    (dbc : Bool) (hcfg : env.loadConfigOk = true)
    (hval : ValidateAndFormatUser blocked env.checkEmail event = ((ue, none), dbc)) :
    UserHandler blocked env event =
      ((runOrchestration env ue).1, (runOrchestration env ue).2.1,
        (if dbc then [Step.checkEmail] else []) ++ (runOrchestration env ue).2.2) := by
  simp [UserHandler, hcfg, hval]

/-- The remote projection of the orchestration trace is exactly the
sequence the spec prescribes. -/
theorem filterRemote_runOrchestration (env : Env) (ue : UserRequest) :
    filterRemote (runOrchestration env ue).2.2 = specRemoteSteps env := by
  unfold runOrchestration specRemoteSteps
  repeat' split
  all_goals simp [filterRemote, isRemoteStep]

/-- The spec-side call sequence is always an initial segment of the five
remote steps in their fixed order. -/
theorem specRemoteSteps_prefix (env : Env) :
    (specRemoteSteps env).IsPrefix remoteSteps := by
  unfold specRemoteSteps remoteSteps
  repeat' split
  all_goals decide

/-- Within the orchestration, the store step is performed exactly when
registration was reached and succeeded. -/
theorem runOrchestration_store_iff (env : Env) (ue : UserRequest) :
    Step.store ∈ (runOrchestration env ue).2.2 ↔
      Step.register ∈ (runOrchestration env ue).2.2 ∧ isOkE env.registerResult = true := by
  unfold runOrchestration
  repeat' split
  all_goals simp_all [isOkE]

/-! ### Claim C1: fixed order of remote steps, abort on failure -/

/-- C1: for a run whose validation (and duplicate check) passed, the
remote calls performed are exactly the spec sequence
invite-code, session, existence check, register, store — an initial
segment of that fixed order, cut at the first failure; and when the
existence check reports the handle exists, the run errors with the
handle-already-exists message and the registration call is never made. -/
theorem userHandler_remote_order (blocked : List String) (env : Env)
    (event ue : UserRequest) (dbc : Bool)
    (hcfg : env.loadConfigOk = true)
    (hval : ValidateAndFormatUser blocked env.checkEmail event = ((ue, none), dbc)) :
    filterRemote (UserHandler blocked env event).2.2 = specRemoteSteps env
    ∧ (specRemoteSteps env).IsPrefix remoteSteps
    ∧ (isOkE env.adminCreds = true → isOkE env.inviteCode = true →
       isOkE env.utilCreds = true → isOkE env.session = true →
       CheckUserExists env.userExistsHttp = (true, none) →
       (UserHandler blocked env event).2.1
          = some ("user already exists with handle: " ++ ue.handle)
       ∧ Step.register ∉ (UserHandler blocked env event).2.2) := by
  have hmain := userHandler_validated blocked env event ue dbc hcfg hval
  refine ⟨?_, specRemoteSteps_prefix env, ?_⟩
  · rw [hmain]
    show List.filter isRemoteStep
      ((if dbc then [Step.checkEmail] else []) ++ (runOrchestration env ue).2.2) = _
    rw [List.filter_append]
    have h0 : List.filter isRemoteStep (if dbc then [Step.checkEmail] else []) = [] := by
      cases dbc <;> rfl
    rw [h0, List.nil_append]
    exact filterRemote_runOrchestration env ue
  · intro hA hI hU hS hX
    obtain ⟨a, hA2⟩ := isOkE_exists hA
    obtain ⟨i, hI2⟩ := isOkE_exists hI
    obtain ⟨u, hU2⟩ := isOkE_exists hU
    obtain ⟨s, hS2⟩ := isOkE_exists hS
    have horch : runOrchestration env ue =
        (none, some ("user already exists with handle: " ++ ue.handle),
         [Step.retrieveAdmin, Step.createInvite, Step.retrieveUtil,
          Step.createSession, Step.checkExists]) := by
      simp only [runOrchestration, hA2, hI2, hU2, hS2, hX]
    rw [hmain, horch]
    exact ⟨rfl, by cases dbc <;> simp⟩

/-- Witness for C1: in the all-success environment the remote calls are
exactly the five steps in order, and with a 200 existence answer the run
aborts with the handle-exists error and never registers. -/
theorem userHandler_remote_order_witness :
    (envAllOk.loadConfigOk = true
      ∧ ValidateAndFormatUser ["admin"] envAllOk.checkEmail sampleEvent
          = ((sampleNormalized, none), true))
    ∧ filterRemote (UserHandler ["admin"] envAllOk sampleEvent).2.2 = specRemoteSteps envAllOk
    ∧ (UserHandler ["admin"]
        ⟨true, dbNoDup, Except.ok sampleAdmin, Except.ok sampleInvite, Except.ok sampleUtil,
         Except.ok sampleSession, Except.ok 200, Except.ok sampleUser, true, true⟩
        sampleEvent).2.1
        = some ("user already exists with handle: " ++ sampleNormalized.handle)
    ∧ Step.register ∉ (UserHandler ["admin"]
        ⟨true, dbNoDup, Except.ok sampleAdmin, Except.ok sampleInvite, Except.ok sampleUtil,
         Except.ok sampleSession, Except.ok 200, Except.ok sampleUser, true, true⟩
        sampleEvent).2.2 := by
  refine ⟨⟨rfl, by decide⟩, ?_, ?_, ?_⟩
  · exact (userHandler_remote_order ["admin"] envAllOk sampleEvent sampleNormalized true
      rfl (by decide)).1
  · exact ((userHandler_remote_order ["admin"]
      ⟨true, dbNoDup, Except.ok sampleAdmin, Except.ok sampleInvite, Except.ok sampleUtil,
       Except.ok sampleSession, Except.ok 200, Except.ok sampleUser, true, true⟩
      sampleEvent sampleNormalized true rfl (by decide)).2.2
      rfl rfl rfl rfl (by decide)).1
  · exact ((userHandler_remote_order ["admin"]
      ⟨true, dbNoDup, Except.ok sampleAdmin, Except.ok sampleInvite, Except.ok sampleUtil,
       Except.ok sampleSession, Except.ok 200, Except.ok sampleUser, true, true⟩
      sampleEvent sampleNormalized true rfl (by decide)).2.2
      rfl rfl rfl rfl (by decide)).2

/-! ### Claim C2: store invoked iff remote registration succeeded -/

/-- C2: the local store-user write is invoked exactly when the remote
account-creation call was made and succeeded; and when the local write
fails after a successful remote creation, the run reports the storage
error while all five remote steps (including the store attempt) have
run, with nothing after them — no rollback step exists. -/
theorem userHandler_store_iff_register (blocked : List String) (env : Env)
    (event : UserRequest) :
    (Step.store ∈ (UserHandler blocked env event).2.2 ↔
      Step.register ∈ (UserHandler blocked env event).2.2 ∧ isOkE env.registerResult = true)
    ∧ (∀ (ue : UserRequest) (dbc : Bool) (user : CreateUserResponse) (serr : String),
        env.loadConfigOk = true →
        ValidateAndFormatUser blocked env.checkEmail event = ((ue, none), dbc) →
        isOkE env.adminCreds = true → isOkE env.inviteCode = true →
        isOkE env.utilCreds = true → isOkE env.session = true →
        CheckUserExists env.userExistsHttp = (false, none) →
        env.registerResult = Except.ok user →
        (StoreUser env.tzOk env.putOk user ue).1 = some serr →
        (UserHandler blocked env event).1 = none
        ∧ (UserHandler blocked env event).2.1 = some "internal error: failed to store user data"
        ∧ filterRemote (UserHandler blocked env event).2.2 = remoteSteps) := by
  constructor
  · by_cases hcfg : env.loadConfigOk = true
    · rcases hv : ValidateAndFormatUser blocked env.checkEmail event with ⟨⟨ue1, verr⟩, dbc1⟩
      rcases verr with _ | e
      · have hmain := userHandler_validated blocked env event ue1 dbc1 hcfg hv
        rw [hmain]
        have ht0s : Step.store ∉ (if dbc1 then [Step.checkEmail] else []) := by
          cases dbc1 <;> simp
        have ht0r : Step.register ∉ (if dbc1 then [Step.checkEmail] else []) := by
          cases dbc1 <;> simp
        have hro := runOrchestration_store_iff env ue1
        constructor
        · intro hst
          rcases List.mem_append.mp hst with h | h
          · exact absurd h ht0s
          · obtain ⟨hreg, hok⟩ := hro.mp h
            exact ⟨List.mem_append.mpr (Or.inr hreg), hok⟩
        · rintro ⟨hreg, hok⟩
          rcases List.mem_append.mp hreg with h | h
          · exact absurd h ht0r
          · exact List.mem_append.mpr (Or.inr (hro.mpr ⟨h, hok⟩))
      · have hhan : UserHandler blocked env event =
            (none, some ("validation error: " ++ e),
             if dbc1 then [Step.checkEmail] else []) := by
          simp [UserHandler, hcfg, hv]
        rw [hhan]
        cases dbc1 <;> simp
    · rw [Bool.not_eq_true] at hcfg
      have hhan : UserHandler blocked env event =
          (none, some "internal error: failed to load application configuration", []) := by
        simp [UserHandler, hcfg]
      rw [hhan]
      simp
  · intro ue dbc user serr hcfg hval hA hI hU hS hX hR hSt
    obtain ⟨a, hA2⟩ := isOkE_exists hA
    obtain ⟨i, hI2⟩ := isOkE_exists hI
    obtain ⟨u, hU2⟩ := isOkE_exists hU
    obtain ⟨s, hS2⟩ := isOkE_exists hS
    have hmain := userHandler_validated blocked env event ue dbc hcfg hval
    rcases hstp : StoreUser env.tzOk env.putOk user ue with ⟨so, wrote⟩
    rw [hstp] at hSt
    have hso : so = some serr := hSt
    subst hso
    have horch : runOrchestration env ue =
        (none, some "internal error: failed to store user data",
         [Step.retrieveAdmin, Step.createInvite, Step.retrieveUtil,
          Step.createSession, Step.checkExists, Step.register, Step.store]) := by
      simp only [runOrchestration, hA2, hI2, hU2, hS2, hX, hR, hstp]
    rw [hmain, horch]
    refine ⟨rfl, rfl, ?_⟩
    cases dbc <;> rfl

/-- Witness for C2: with every remote call succeeding but the PutItem
write failing, the run reports the storage error and all five remote
steps (register included) were performed. -/
theorem userHandler_store_iff_register_witness :
    (StoreUser true false sampleUser sampleNormalized).1 = some "failed to store user in DynamoDB"
    ∧ (UserHandler ["admin"]
        ⟨true, dbNoDup, Except.ok sampleAdmin, Except.ok sampleInvite, Except.ok sampleUtil,
         Except.ok sampleSession, Except.ok 404, Except.ok sampleUser, true, false⟩
        sampleEvent).2.1 = some "internal error: failed to store user data"
    ∧ filterRemote (UserHandler ["admin"]
        ⟨true, dbNoDup, Except.ok sampleAdmin, Except.ok sampleInvite, Except.ok sampleUtil,
         Except.ok sampleSession, Except.ok 404, Except.ok sampleUser, true, false⟩
        sampleEvent).2.2 = remoteSteps := by
  refine ⟨by decide, ?_, ?_⟩
  · exact ((userHandler_store_iff_register ["admin"]
      ⟨true, dbNoDup, Except.ok sampleAdmin, Except.ok sampleInvite, Except.ok sampleUtil,
       Except.ok sampleSession, Except.ok 404, Except.ok sampleUser, true, false⟩
      sampleEvent).2 sampleNormalized true sampleUser
      "failed to store user in DynamoDB" rfl (by decide) rfl rfl rfl rfl (by decide)
      rfl (by decide)).2.1
  · exact ((userHandler_store_iff_register ["admin"]
      ⟨true, dbNoDup, Except.ok sampleAdmin, Except.ok sampleInvite, Except.ok sampleUtil,
       Except.ok sampleSession, Except.ok 404, Except.ok sampleUser, true, false⟩
      sampleEvent).2 sampleNormalized true sampleUser
      "failed to store user in DynamoDB" rfl (by decide) rfl rfl rfl rfl (by decide)
      rfl (by decide)).2.2

/-! ### Claim C3: existence-check status mapping -/

/-- C3: `CheckUserExists` answers exists=true on status 200, exists=false
on 404 and on 400, an error (no boolean answer) on any other status or
on transport failure; consequently a 404 or 400 answer lets the
orchestration proceed to the account-creation call. -/
theorem checkUserExists_status_mapping :
    (∀ e : String, CheckUserExists (Except.error e)
        = (false, some ("request failed: " ++ e)))
    ∧ CheckUserExists (Except.ok 200) = (true, none)
    ∧ CheckUserExists (Except.ok 404) = (false, none)
    ∧ CheckUserExists (Except.ok 400) = (false, none)
    ∧ (∀ s : Nat, s ≠ 200 → s ≠ 404 → s ≠ 400 →
        CheckUserExists (Except.ok s)
          = (false, some ("unexpected status code: " ++ toString s)))
    ∧ (∀ (blocked : List String) (env : Env) (event ue : UserRequest) (dbc : Bool),
        env.loadConfigOk = true →
        ValidateAndFormatUser blocked env.checkEmail event = ((ue, none), dbc) →
        isOkE env.adminCreds = true → isOkE env.inviteCode = true →
        isOkE env.utilCreds = true → isOkE env.session = true →
        (env.userExistsHttp = Except.ok 404 ∨ env.userExistsHttp = Except.ok 400) →
        Step.register ∈ (UserHandler blocked env event).2.2) := by
  refine ⟨fun e => rfl, rfl, rfl, rfl, ?_, ?_⟩
  · intro s hs1 hs2 hs3
    have hnot : ¬(s = 404 ∨ s = 400) := by
      rintro (h | h)
      · exact hs2 h
      · exact hs3 h
    show (if s = 200 then ((true : Bool), (none : Option String))
      else if s = 404 ∨ s = 400 then (false, none)
      else (false, some ("unexpected status code: " ++ toString s)))
      = (false, some ("unexpected status code: " ++ toString s))
    rw [if_neg hs1, if_neg hnot]
  · intro blocked env event ue dbc hcfg hval hA hI hU hS hx
    obtain ⟨a, hA2⟩ := isOkE_exists hA
    obtain ⟨i, hI2⟩ := isOkE_exists hI
    obtain ⟨u, hU2⟩ := isOkE_exists hU
    obtain ⟨s, hS2⟩ := isOkE_exists hS
    have hcheck : CheckUserExists env.userExistsHttp = (false, none) := by
      rcases hx with hx | hx <;> rw [hx] <;> rfl
    have hmain := userHandler_validated blocked env event ue dbc hcfg hval
    have hfil := filterRemote_runOrchestration env ue
    have hspec : specRemoteSteps env =
        (match env.registerResult with
          | Except.error _ =>
            [Step.createInvite, Step.createSession, Step.checkExists, Step.register]
          | Except.ok _ =>
            [Step.createInvite, Step.createSession, Step.checkExists,
             Step.register, Step.store]) := by
      simp only [specRemoteSteps, hA2, hI2, hU2, hS2, hcheck]
    have hregf : Step.register ∈ filterRemote (runOrchestration env ue).2.2 := by
      rw [hfil, hspec]
      rcases env.registerResult with _ | _ <;> simp
    have hreg : Step.register ∈ (runOrchestration env ue).2.2 :=
      (List.mem_filter.mp hregf).1
    rw [hmain]
    exact List.mem_append.mpr (Or.inr hreg)

/-- Witness for C3: status 500 is an error, and in the all-success run
with a 404 existence answer the register call is made. -/
theorem checkUserExists_status_mapping_witness :
    CheckUserExists (Except.ok 500)
      = (false, some ("unexpected status code: " ++ toString 500))
    ∧ Step.register ∈ (UserHandler ["admin"] envAllOk sampleEvent).2.2 :=
  ⟨checkUserExists_status_mapping.2.2.2.2.1 500 (by decide) (by decide) (by decide),
   checkUserExists_status_mapping.2.2.2.2.2 ["admin"] envAllOk sampleEvent
     sampleNormalized true rfl (by decide) rfl rfl rfl rfl (Or.inl rfl)⟩

/-! ### Claim C4: duplicate email aborts before any identity-protocol call -/

/-- C4: once the pure validations pass, a duplicate-email answer makes
the run fail with the email-taken error after only the duplicate-check
call — no invite-code, session or registration call happens; and a
storage error from the duplicate check fails the run with the generic
internal message instead of treating the email as free. -/
theorem duplicate_email_check_gates (blocked : List String) (env : Env)
    (event : UserRequest)
    (hcfg : env.loadConfigOk = true)
    (h1 : event.handle ≠ "") (h2 : event.email ≠ "") (h3 : event.password ≠ "")
    (hh : ValidateHandle blocked (trimSuffixGo event.handle PDS_Suffix) = none)
    (he : ValidateEmail event.email = none)
    (hp : ValidatePassword event.password = none) :
    (env.checkEmail event.email = (true, none) →
      UserHandler blocked env event =
        (none, some ("validation error: " ++ EmailTaken), [Step.checkEmail]))
    ∧ (∀ (b : Bool) (errMsg : String), env.checkEmail event.email = (b, some errMsg) →
      UserHandler blocked env event =
        (none, some ("validation error: " ++ "internal error: failed to check email"),
         [Step.checkEmail])) := by
  have hpres : ¬(event.handle = "" ∨ event.email = "" ∨ event.password = "") := by
    push_neg
    exact ⟨h1, h2, h3⟩
  constructor
  · intro hdx
    have hvafu : ValidateAndFormatUser blocked env.checkEmail event =
        ((zeroUserRequest, some EmailTaken), true) := by
      simp only [ValidateAndFormatUser, hh, he, hp]
      rw [if_neg hpres]
      simp [hdx]
    simp [UserHandler, hcfg, hvafu]
  · intro b errMsg hdx
    have hvafu : ValidateAndFormatUser blocked env.checkEmail event =
        ((zeroUserRequest, some "internal error: failed to check email"), true) := by
      simp only [ValidateAndFormatUser, hh, he, hp]
      rw [if_neg hpres]
      simp [hdx]
    simp [UserHandler, hcfg, hvafu]

/-- Witness for C4: a duplicate email fails the sample request with the
email-taken error, a storage error fails it with the generic internal
error; in both runs the trace holds only the duplicate-check call. -/
theorem duplicate_email_check_gates_witness :
    UserHandler ["admin"]
      ⟨true, fun _ => (true, none), Except.ok sampleAdmin, Except.ok sampleInvite,
       Except.ok sampleUtil, Except.ok sampleSession, Except.ok 404,
       Except.ok sampleUser, true, true⟩ sampleEvent
      = (none, some ("validation error: " ++ EmailTaken), [Step.checkEmail])
    ∧ UserHandler ["admin"]
      ⟨true, fun _ => (false, some "dynamo down"), Except.ok sampleAdmin,
       Except.ok sampleInvite, Except.ok sampleUtil, Except.ok sampleSession,
       Except.ok 404, Except.ok sampleUser, true, true⟩ sampleEvent
      = (none, some ("validation error: " ++ "internal error: failed to check email"),
         [Step.checkEmail]) :=
  ⟨(duplicate_email_check_gates ["admin"]
      ⟨true, fun _ => (true, none), Except.ok sampleAdmin, Except.ok sampleInvite,
       Except.ok sampleUtil, Except.ok sampleSession, Except.ok 404,
       Except.ok sampleUser, true, true⟩ sampleEvent
      rfl (by decide) (by decide) (by decide) (by decide) (by decide) (by decide)).1 rfl,
   (duplicate_email_check_gates ["admin"]
      ⟨true, fun _ => (false, some "dynamo down"), Except.ok sampleAdmin,
       Except.ok sampleInvite, Except.ok sampleUtil, Except.ok sampleSession,
       Except.ok 404, Except.ok sampleUser, true, true⟩ sampleEvent
      rfl (by decide) (by decide) (by decide) (by decide) (by decide) (by decide)).2
      false "dynamo down" rfl⟩

/-! ### Claim C6: handle length bounds -/

/-- C6: for a request with all fields present, a base handle (the handle
after stripping the canonical suffix) of byte length below 3 fails the
run with the handle-too-short error and above 18 with the
handle-too-long error, in both cases with an empty call trace — no
remote or storage call at all; base lengths 3 through 18 pass the
length check, the outcome then being decided by the blocklist and the
character-set checks alone. -/
theorem handle_length_validation (blocked : List String) (env : Env)
    (event : UserRequest)
    (hcfg : env.loadConfigOk = true)
    (h1 : event.handle ≠ "") (h2 : event.email ≠ "") (h3 : event.password ≠ "") :
    (byteLen (trimSuffixGo event.handle PDS_Suffix) < 3 →
      UserHandler blocked env event =
        (none, some ("validation error: " ++
          (HandleTooShort ++ ": " ++ trimSuffixGo event.handle PDS_Suffix)), []))
    ∧ (byteLen (trimSuffixGo event.handle PDS_Suffix) > 18 →
      UserHandler blocked env event =
        (none, some ("validation error: " ++
          (HandleTooLong ++ ": " ++ trimSuffixGo event.handle PDS_Suffix)), []))
    ∧ (3 ≤ byteLen (trimSuffixGo event.handle PDS_Suffix) →
       byteLen (trimSuffixGo event.handle PDS_Suffix) ≤ 18 →
       ValidateHandle blocked (trimSuffixGo event.handle PDS_Suffix) =
         (if blocked.any (fun b => equalFold (trimSuffixGo event.handle PDS_Suffix) b) then
            some (BlockedHandle ++ ": " ++ trimSuffixGo event.handle PDS_Suffix)
          else if handleRegexMatch (trimSuffixGo event.handle PDS_Suffix) then none
          else some (InvalidHandle ++ ": " ++ trimSuffixGo event.handle PDS_Suffix))) := by
  have hpres : ¬(event.handle = "" ∨ event.email = "" ∨ event.password = "") := by
    push_neg
    exact ⟨h1, h2, h3⟩
  refine ⟨?_, ?_, ?_⟩
  · intro hlt
    have hvh : ValidateHandle blocked (trimSuffixGo event.handle PDS_Suffix) =
        some (HandleTooShort ++ ": " ++ trimSuffixGo event.handle PDS_Suffix) := by
      unfold ValidateHandle
      rw [if_pos hlt]
    have hvafu : ValidateAndFormatUser blocked env.checkEmail event =
        ((zeroUserRequest, some (HandleTooShort ++ ": " ++
          trimSuffixGo event.handle PDS_Suffix)), false) := by
      simp only [ValidateAndFormatUser, hvh]
      rw [if_neg hpres]
    simp [UserHandler, hcfg, hvafu]
  · intro hgt
    have hvh : ValidateHandle blocked (trimSuffixGo event.handle PDS_Suffix) =
        some (HandleTooLong ++ ": " ++ trimSuffixGo event.handle PDS_Suffix) := by
      unfold ValidateHandle
      rw [if_neg (by omega), if_pos hgt]
    have hvafu : ValidateAndFormatUser blocked env.checkEmail event =
        ((zeroUserRequest, some (HandleTooLong ++ ": " ++
          trimSuffixGo event.handle PDS_Suffix)), false) := by
      simp only [ValidateAndFormatUser, hvh]
      rw [if_neg hpres]
    simp [UserHandler, hcfg, hvafu]
  · intro hge hle
    unfold ValidateHandle
    rw [if_neg (by omega), if_neg (by omega)]

/-- Witness for C6 at a two-character handle: the run fails with the
handle-too-short error and performs no collaborator call. -/
theorem handle_length_validation_witness :
    byteLen (trimSuffixGo "ab" PDS_Suffix) < 3
    ∧ UserHandler ["admin"] envAllOk ⟨"ab", "user@example.com", "Valid@123"⟩ =
        (none, some ("validation error: " ++
          (HandleTooShort ++ ": " ++ trimSuffixGo "ab" PDS_Suffix)), []) :=
  ⟨by decide,
   (handle_length_validation ["admin"] envAllOk ⟨"ab", "user@example.com", "Valid@123"⟩
     rfl (by decide) (by decide) (by decide)).1 (by decide)⟩

end UserCreation
